import Mathlib

/-!
Shallow embedding of the Distributed E-Voting Data Management system
(src/app.py): the four Cassandra tables (voters, votes, candidates,
voting_stats) are modelled as association lists keyed by UUID, and the
Flask handlers (register_voter, cast_vote, get_candidates,
get_statistics) as pure functions that thread the database state and
return, besides the HTTP response, the trace of storage operations the
handler executed, in source order.

UUIDs and timestamps are modelled as natural numbers; datetime.now()
and uuid.uuid4() results are passed in as parameters.  Cassandra
semantics relevant to the code is modelled faithfully: INSERT and
UPDATE are upserts (UPDATE creates the row if absent, setting only the
assigned columns and leaving the rest null), and a SELECT by primary
key returns at most one row.  The Python driver's ResultSet is truthy
iff it holds at least one row, and a null column is falsy.
-/

namespace EVoting

abbrev Uuid := Nat

abbrev Timestamp := Nat

/-- Hexadecimal value of a character, as accepted by Python int(s, 16). -/
def hexVal (c : Char) : Option Nat :=
  if '0' ≤ c ∧ c ≤ '9' then some (c.toNat - '0'.toNat)
  else if 'a' ≤ c ∧ c ≤ 'f' then some (c.toNat - 'a'.toNat + 10)
  else if 'A' ≤ c ∧ c ≤ 'F' then some (c.toNat - 'A'.toNat + 10)
  else none

/-- Tries to strip pat from the front of a character list. -/
def matchPfx : List Char → List Char → Option (List Char)
  | [], cs => some cs
  | _ :: _, [] => none
  | p :: ps, c :: cs => if c = p then matchPfx ps cs else none

/-- Fuelled worker for removeOcc; fuel equals the list length, and each
step consumes at least one character. -/
def removeOccAux (pat : List Char) : Nat → List Char → List Char
  | _, [] => []
  | 0, cs => cs
  | fuel + 1, c :: cs =>
    match matchPfx pat (c :: cs) with
    | some rest => removeOccAux pat fuel rest
    | none => c :: removeOccAux pat fuel cs

/-- Models Python str.replace(pat, two-quote empty string): removes every
non-overlapping occurrence of pat, scanning left to right. -/
def removeOcc (pat : String) (cs : List Char) : List Char :=
  removeOccAux pat.data cs.length cs

/-- Character is an opening or closing curly brace. -/
def isBrace (c : Char) : Bool :=
  c == Char.ofNat 123 || c == Char.ofNat 125

/-- Models Python str.strip: drops characters satisfying p from both ends. -/
def stripEnds (p : Char → Bool) (cs : List Char) : List Char :=
  ((cs.dropWhile p).reverse.dropWhile p).reverse

/-- Reads a hexadecimal digit string as a number; none on a non-hex digit. -/
def hexValueAux : Nat → List Char → Option Nat
  | acc, [] => some acc
  | acc, c :: cs =>
    match hexVal c with
    | some d => hexValueAux (16 * acc + d) cs
    | none => none

/-- Models Python uuid.UUID(s) for a string argument: the constructor
removes every occurrence of the substrings urn: and uuid:, strips curly
braces from both ends, removes all hyphens, then requires exactly 32
characters, read as a base-16 integer (ValueError otherwise, modelled
as none).  The whitespace and underscore tolerance of Python int() is
not modelled; no input in this development uses it. -/
def uuidFromString (s : String) : Option Uuid :=
  let cs := s.data
  let cs := removeOcc "urn:" cs
  let cs := removeOcc "uuid:" cs
  let cs := stripEnds isBrace cs
  let cs := cs.filter (fun c => c != '-')
  if cs.length = 32 then hexValueAux 0 cs else none

/-- Models uuid.UUID(data.get(key)): a missing JSON field yields None and
uuid.UUID(None) raises TypeError, modelled as none like the ValueError
of a malformed string (both are caught by the same except clause). -/
def parseUuidArg : Option String → Option Uuid
  | none => none
  | some s => uuidFromString s

/-- Python str(e) for the exception uuid.UUID raises on a bad argument:
TypeError when the argument is None, ValueError on a malformed string. -/
def uuidArgError : Option String → String
  | none => "one of the hex, bytes, bytes_le, fields, or int arguments must be given"
  | some _ => "badly formed hexadecimal UUID string"

/-- Row of the voters table (all non-key columns nullable). -/
structure VoterRow where
  voter_name : Option String
  email : Option String
  phone : Option String
  has_voted : Option Bool
  voted_at : Option Timestamp
  created_at : Option Timestamp
  deriving DecidableEq

/-- Row of the votes table.  The only writer (cast_vote) always supplies
every column, so the two timestamp columns are modelled as non-null. -/
structure VoteRow where
  voter_id : Uuid
  candidate_id : Uuid
  voted_at : Timestamp
  vote_timestamp : Timestamp
  deriving DecidableEq

/-- Row of the candidates table. -/
structure CandidateRow where
  candidate_name : Option String
  party : Option String
  symbol : Option String
  description : Option String
  created_at : Option Timestamp
  deriving DecidableEq

/-- Row of the voting_stats table created at startup. -/
structure StatsRow where
  total_votes : Option Int
  total_voters : Option Int
  votes_by_candidate : List (Uuid × Int)
  updated_at : Option Timestamp
  deriving DecidableEq

/-- Database state: the four tables created by create_tables, each an
association list from primary key to row. -/
structure DB where
  voters : List (Uuid × VoterRow)
  votes : List (Uuid × VoteRow)
  candidates : List (Uuid × CandidateRow)
  voting_stats : List (Uuid × StatsRow)
  deriving DecidableEq

/-- Cassandra INSERT semantics: an upsert supplying every column, so an
existing row under the same key is replaced, otherwise appended. -/
def upsertRow {α : Type} (t : List (Uuid × α)) (k : Uuid) (v : α) : List (Uuid × α) :=
  if t.any (fun p => p.1 == k) then
    t.map (fun p => if p.1 == k then (k, v) else p)
  else t ++ [(k, v)]

/-- SELECT by primary key: at most one row. -/
def selectVoter (t : List (Uuid × VoterRow)) (k : Uuid) : Option VoterRow :=
  (t.find? (fun p => p.1 == k)).map (fun p => p.2)

/-- Cassandra upsert semantics of the statement
UPDATE voters SET has_voted = true, voted_at = now WHERE voter_id = k:
updates the two columns on an existing row, or creates a row with only
those columns set (the rest null) when no row with key k exists. -/
def updateVoterHasVoted (t : List (Uuid × VoterRow)) (k : Uuid) (now : Timestamp) :
    List (Uuid × VoterRow) :=
  if t.any (fun p => p.1 == k) then
    t.map (fun p =>
      if p.1 == k then (p.1, { p.2 with has_voted := some true, voted_at := some now })
      else p)
  else
    t ++ [(k, { voter_name := none, email := none, phone := none,
                has_voted := some true, voted_at := some now, created_at := none })]

/-- Python truthiness of a nullable boolean column: None and False are
falsy, True is truthy. -/
def truthyOptBool : Option Bool → Bool
  | some b => b
  | none => false

/-- Storage operations the handlers can execute, for recording handler
traces in source order.  No constructor touches the voting_stats table
because no statement in the source reads or writes it. -/
inductive StorageOp where
  | selectVoterOp (voter_id : Uuid)
  | insertVoteOp (vote_id voter_id candidate_id : Uuid) (now : Timestamp)
  | updateVoterOp (voter_id : Uuid) (now : Timestamp)
  | insertVoterOp (voter_id : Uuid)
  | selectCandidatesOp
  | countVotesOp
  | countVotersOp
  deriving DecidableEq

/-- Response of the /api/vote handler: HTTP 201 with a vote_id on
success, HTTP 400 with an error string on failure. -/
inductive VoteResp where
  | created (vote_id : Uuid)
  | badRequest (error : String)
  deriving DecidableEq

/-- HTTP status of a /api/vote response. -/
def VoteResp.status : VoteResp → Nat
  | created _ => 201
  | badRequest _ => 400

/-- Response of the /api/voters handler. -/
inductive RegResp where
  | created (voter_id : Uuid)
  | badRequest (error : String)
  deriving DecidableEq

/-- JSON body of a /api/vote request: each field absent or a string. -/
structure VoteRequest where
  voter_id : Option String
  candidate_id : Option String
  deriving DecidableEq

/-- JSON body of a /api/voters request. -/
structure RegisterRequest where
  voter_name : Option String
  email : Option String
  phone : Option String
  deriving DecidableEq

/-- Eligibility check of cast_vote (app.py lines 158-162): executes
SELECT has_voted FROM voters WHERE voter_id = k and tests
result and result[0].has_voted — true iff a row exists and its
has_voted column is truthy. -/
def alreadyVotedCheck (db : DB) (voter_id : Uuid) : Bool :=
  match selectVoter db.voters voter_id with
  | some row => truthyOptBool row.has_voted
  | none => false

/-- Write phase of cast_vote (app.py lines 165-181): the plain INSERT of
the vote row followed by the plain (unconditional) UPDATE of the voter
row.  Exposed as its own database step so that interleavings of two
concurrent handlers can be expressed with the very operations the
sequential handler performs. -/
def voteWritePhase (db : DB) (vote_id voter_id candidate_id : Uuid) (now : Timestamp) : DB :=
  let db1 : DB := { db with votes := upsertRow db.votes vote_id ⟨voter_id, candidate_id, now, now⟩ }
  { db1 with voters := updateVoterHasVoted db1.voters voter_id now }

/-- The /api/vote handler cast_vote (app.py lines 149-186): parses both
UUID arguments (an exception yields 400 before any storage call),
executes the read-then-write eligibility check, and on the eligible
path inserts the Vote row and then updates the Voter row.  Returns the
response, the new database state and the trace of storage operations. -/
def cast_vote (db : DB) (data : VoteRequest) (vote_id : Uuid) (now : Timestamp) :
    VoteResp × DB × List StorageOp :=
  match parseUuidArg data.voter_id with
  | none => (VoteResp.badRequest (uuidArgError data.voter_id), db, [])
  | some voter_id =>
    match parseUuidArg data.candidate_id with
    | none => (VoteResp.badRequest (uuidArgError data.candidate_id), db, [])
    | some candidate_id =>
      if alreadyVotedCheck db voter_id then
        (VoteResp.badRequest "Voter has already voted", db, [StorageOp.selectVoterOp voter_id])
      else
        (VoteResp.created vote_id, voteWritePhase db vote_id voter_id candidate_id now,
         [StorageOp.selectVoterOp voter_id,
          StorageOp.insertVoteOp vote_id voter_id candidate_id now,
          StorageOp.updateVoterOp voter_id now])

/-- The /api/voters handler register_voter (app.py lines 123-147):
mints a voter_id and inserts the row with has_voted = false and
created_at = now; the JSON fields are stored as given (null when
absent) with no validation of any kind. -/
def register_voter (db : DB) (data : RegisterRequest) (voter_id : Uuid) (now : Timestamp) :
    RegResp × DB × List StorageOp :=
  let row : VoterRow :=
    { voter_name := data.voter_name, email := data.email, phone := data.phone,
      has_voted := some false, voted_at := none, created_at := some now }
  (RegResp.created voter_id,
   { db with voters := upsertRow db.voters voter_id row },
   [StorageOp.insertVoterOp voter_id])

/-- Candidate fields exposed by the /api/candidates handler. -/
structure CandidateOut where
  candidate_id : Uuid
  candidate_name : Option String
  party : Option String
  symbol : Option String
  deriving DecidableEq

/-- The /api/candidates handler get_candidates (app.py lines 188-207):
SELECT * FROM candidates, projected to the four exposed fields. -/
def get_candidates (db : DB) : List CandidateOut × List StorageOp :=
  (db.candidates.map (fun p =>
     { candidate_id := p.1, candidate_name := p.2.candidate_name,
       party := p.2.party, symbol := p.2.symbol }),
   [StorageOp.selectCandidatesOp])

/-- Body of a successful /api/statistics response: exactly the two
fields the handler returns. -/
structure StatsResult where
  total_votes : Nat
  total_voters : Nat
  deriving DecidableEq

/-- The /api/statistics handler get_statistics (app.py lines 209-225):
SELECT COUNT(*) FROM votes and SELECT COUNT(*) FROM voters, returned as
total_votes and total_voters. -/
def get_statistics (db : DB) : StatsResult × List StorageOp :=
  ({ total_votes := db.votes.length, total_voters := db.voters.length },
   [StorageOp.countVotesOp, StorageOp.countVotersOp])

/-- Number of Vote rows recorded for a given voter. -/
def voteCountFor (db : DB) (v : Uuid) : Nat :=
  (db.votes.filter (fun p => p.2.voter_id == v)).length

/-- The §3 invariant of the spec, as a decidable check: every Voter row
has has_voted = true exactly when exactly one Vote row carries its
voter_id. -/
def voterInvariant (db : DB) : Bool :=
  db.voters.all (fun p => (p.2.has_voted == some true) == (voteCountFor db p.1 == 1))

/-! Concrete data used by the theorems: UUID strings in the 32-hex-digit
form uuid.UUID accepts, sample rows, and sample database states. -/

/-- UUID string parsing to 1. -/
def uuidStr1 : String := "00000000000000000000000000000001"

/-- UUID string parsing to 7. -/
def uuidStr7 : String := "00000000000000000000000000000007"

/-- UUID string parsing to 9. -/
def uuidStr9 : String := "00000000000000000000000000000009"

/-- UUID string parsing to 10. -/
def uuidStr10 : String := "0000000000000000000000000000000a"

/-- A registered voter who has not voted, as register_voter creates it. -/
def eligibleVoter : VoterRow :=
  { voter_name := some "Alice", email := some "alice@mail.test", phone := some "111",
    has_voted := some false, voted_at := none, created_at := some 0 }

/-- A voter whose stored has_voted flag is already true. -/
def votedVoter : VoterRow :=
  { voter_name := some "Bob", email := some "bob@mail.test", phone := some "222",
    has_voted := some true, voted_at := some 1, created_at := some 0 }

/-- A candidate row. -/
def candA : CandidateRow :=
  { candidate_name := some "X", party := some "P", symbol := some "S",
    description := none, created_at := some 0 }

/-- The empty database, as right after create_tables. -/
def emptyDb : DB := { voters := [], votes := [], candidates := [], voting_stats := [] }

/-- Sanity check of the uuid.UUID model: the canonical hyphenated form
of the UUID with value 10 parses like the plain 32-digit form. -/
theorem uuid_parse_hyphenated :
    uuidFromString "00000000-0000-0000-0000-00000000000a" = some 10 ∧
    uuidFromString uuidStr10 = some 10 ∧
    uuidFromString "not-a-uuid" = none := by decide

/-- Initial state for the C1 race: voter 1 registered and eligible,
candidates 10 and 11 on the ballot, no votes. -/
def raceDb0 : DB :=
  { voters := [(1, eligibleVoter)], votes := [],
    candidates := [(10, candA), (11, candA)], voting_stats := [] }

/-- Final state of the interleaving in which two concurrent cast_vote
handlers for voter 1 (vote ids 100 and 101, candidates 10 and 11) both
run their SELECT eligibility check against raceDb0 before either write
phase executes, and then both write phases apply. -/
def raceFinal : DB :=
  voteWritePhase (voteWritePhase raceDb0 100 1 10 7) 101 1 11 8

/-- Claim C1: at most one Vote row ever exists per voter because the
eligibility transition is an atomic conditional write.  The code instead
checks eligibility with a separate SELECT followed by plain writes
(app.py lines 158-181), so in the interleaving where both handlers read
before either writes, both eligibility checks pass on the initial state
and the final state holds two Vote rows for voter 1 — both handlers
report success. -/
theorem c1_concurrent_casts_double_vote :
    alreadyVotedCheck raceDb0 1 = false ∧
    voteCountFor raceFinal 1 = 2 := by decide

/-- Initial state for the C5 race: voter 2 registered and eligible. -/
def c5Db0 : DB :=
  { voters := [(2, eligibleVoter)], votes := [],
    candidates := [(20, candA)], voting_stats := [] }

/-- State reached from c5Db0 by two concurrent cast_vote handlers for
voter 2 whose SELECT checks both precede both write phases. -/
def c5Final : DB :=
  voteWritePhase (voteWritePhase c5Db0 200 2 20 3) 201 2 20 4

/-- Claim C5: has_voted = true iff exactly one Vote row per voter, in
every reachable quiescent state.  The invariant holds initially, yet
the race interleaving of the code's read-then-write cast_vote reaches a
quiescent state with two Vote rows for voter 2 and has_voted = true,
violating it. -/
theorem c5_invariant_broken_by_race :
    voterInvariant c5Db0 = true ∧
    alreadyVotedCheck c5Db0 2 = false ∧
    voterInvariant c5Final = false := by decide

/-- Initial state for C2: voter 1 registered and eligible, and an empty
candidates table, so no candidate_id whatsoever is valid. -/
def c2Db0 : DB :=
  { voters := [(1, eligibleVoter)], votes := [], candidates := [], voting_stats := [] }

/-- Claim C2: a cast_vote whose candidate_id matches no Candidate fails
with InvalidCandidate before any durable mutation.  The code never
consults the candidates table: with an empty candidates table the call
for candidate 9 returns 201 success, records a Vote row for voter 1 and
flips the voter's has_voted to true. -/
theorem c2_unknown_candidate_still_mutates :
    c2Db0.candidates = [] ∧
    (cast_vote c2Db0 ⟨some uuidStr1, some uuidStr9⟩ 300 6).1 = VoteResp.created 300 ∧
    voteCountFor (cast_vote c2Db0 ⟨some uuidStr1, some uuidStr9⟩ 300 6).2.1 1 = 1 ∧
    selectVoter (cast_vote c2Db0 ⟨some uuidStr1, some uuidStr9⟩ 300 6).2.1.voters 1 =
      some { eligibleVoter with has_voted := some true, voted_at := some 6 } := by decide

/-- Claim C3: a cast_vote whose voter_id matches no Voter returns
VoterNotFound and creates no Vote row.  The code treats the empty
SELECT result as not-already-voted and proceeds: on an empty database a
vote by unregistered voter 7 returns 201 success, creates a Vote row,
and the unconditional UPDATE even upserts a phantom voters row with
has_voted = true and every other column null. -/
theorem c3_unknown_voter_vote_created :
    (cast_vote emptyDb ⟨some uuidStr7, some uuidStr9⟩ 400 2).1 = VoteResp.created 400 ∧
    voteCountFor (cast_vote emptyDb ⟨some uuidStr7, some uuidStr9⟩ 400 2).2.1 7 = 1 ∧
    selectVoter (cast_vote emptyDb ⟨some uuidStr7, some uuidStr9⟩ 400 2).2.1.voters 7 =
      some { voter_name := none, email := none, phone := none,
             has_voted := some true, voted_at := some 2, created_at := none } := by decide

/-- Initial state for C4: voter 1 eligible, candidate 10 on the ballot. -/
def c4Db0 : DB :=
  { voters := [(1, eligibleVoter)], votes := [],
    candidates := [(10, candA)], voting_stats := [] }

/-- Claim C4: the Vote row is written only after the conditional
eligibility write has reported success.  The code's storage trace on a
successful cast shows the opposite order: the INSERT of the Vote row
(app.py line 171) precedes the voter UPDATE (line 181), and that UPDATE
is unconditional — no conditional-write operation occurs at all. -/
theorem c4_vote_written_before_voter_update :
    (cast_vote c4Db0 ⟨some uuidStr1, some uuidStr10⟩ 500 9).2.2 =
      [StorageOp.selectVoterOp 1,
       StorageOp.insertVoteOp 500 1 10 9,
       StorageOp.updateVoterOp 1 9] := by decide

/-- Claim C7: register with an empty required field fails with
ValidationError and creates no Voter row.  The code performs no field
validation: registering with every field the empty string returns 201
and inserts the row (with has_voted = false) all the same. -/
theorem c7_empty_fields_still_registered :
    (register_voter emptyDb ⟨some "", some "", some ""⟩ 600 1).1 = RegResp.created 600 ∧
    (register_voter emptyDb ⟨some "", some "", some ""⟩ 600 1).2.1.voters =
      [(600, { voter_name := some "", email := some "", phone := some "",
               has_voted := some false, voted_at := none, created_at := some 1 })] := by decide

/-- Claim C6: when the stored has_voted of the requested voter is
already true, cast_vote fails with the AlreadyVoted error and performs
no further writes — the response is the 400 AlreadyVoted body, the
database is returned unchanged (voters, votes and voting_stats alike),
and the storage trace holds only the single eligibility SELECT. -/
theorem c6_already_voted_no_writes (db : DB) (data : VoteRequest)
    (w : Uuid) (now : Timestamp) (v c : Uuid) (row : VoterRow)
    (hv : parseUuidArg data.voter_id = some v)
    (hc : parseUuidArg data.candidate_id = some c)
    (hrow : selectVoter db.voters v = some row)
    (hvoted : row.has_voted = some true) :
    cast_vote db data w now =
      (VoteResp.badRequest "Voter has already voted", db, [StorageOp.selectVoterOp v]) := by
  have hchk : alreadyVotedCheck db v = true := by
    unfold alreadyVotedCheck
    rw [hrow]
    show truthyOptBool row.has_voted = true
    rw [hvoted]
    rfl
  unfold cast_vote
  rw [hv, hc]
  show (if alreadyVotedCheck db v = true then
          (VoteResp.badRequest "Voter has already voted", db, [StorageOp.selectVoterOp v])
        else
          (VoteResp.created w, voteWritePhase db w v c now,
           [StorageOp.selectVoterOp v, StorageOp.insertVoteOp w v c now,
            StorageOp.updateVoterOp v now])) =
      (VoteResp.badRequest "Voter has already voted", db, [StorageOp.selectVoterOp v])
  rw [hchk]
  rfl

/-- Database for the C6 witness: voter 1 has voted (vote row 900). -/
def c6Db : DB :=
  { voters := [(1, votedVoter)], votes := [(900, ⟨1, 10, 1, 1⟩)],
    candidates := [(10, candA)], voting_stats := [] }

/-- Witness for c6_already_voted_no_writes at a concrete input: voter 1
of c6Db has has_voted = true, and the repeated cast is rejected with
the database unchanged. -/
theorem c6_already_voted_no_writes_witness :
    cast_vote c6Db ⟨some uuidStr1, some uuidStr10⟩ 901 5 =
      (VoteResp.badRequest "Voter has already voted", c6Db, [StorageOp.selectVoterOp 1]) :=
  c6_already_voted_no_writes c6Db ⟨some uuidStr1, some uuidStr10⟩ 901 5 1 10 votedVoter
    (by decide) (by decide) (by decide) (by decide)

/-- Claim C8: the total_votes value returned by the statistics handler
equals the number of durable Vote rows of the database it reads. -/
theorem c8_total_votes_counts_vote_rows (db : DB) :
    (get_statistics db).1.total_votes = db.votes.length := rfl

/-- Claim C9: a /api/vote request whose voter_id or candidate_id is
missing or is not a well-formed UUID string gets a 400 response, leaves
the database unchanged, and executes no storage operation at all: the
UUID parsing precedes every storage access. -/
theorem c9_malformed_uuid_no_storage (db : DB) (data : VoteRequest)
    (w : Uuid) (now : Timestamp)
    (h : parseUuidArg data.voter_id = none ∨ parseUuidArg data.candidate_id = none) :
    (cast_vote db data w now).1.status = 400 ∧
    (cast_vote db data w now).2.1 = db ∧
    (cast_vote db data w now).2.2 = [] := by
  unfold cast_vote
  rcases h with h | h
  · rw [h]
    exact ⟨rfl, rfl, rfl⟩
  · cases hv : parseUuidArg data.voter_id with
    | none => exact ⟨rfl, rfl, rfl⟩
    | some v =>
        rw [h]
        exact ⟨rfl, rfl, rfl⟩

/-- Witness for c9_malformed_uuid_no_storage at concrete inputs: a
request missing voter_id and a request with a malformed candidate_id
are both rejected without touching the c6Db state. -/
theorem c9_malformed_uuid_no_storage_witness :
    ((cast_vote c6Db ⟨none, some uuidStr10⟩ 902 5).1.status = 400 ∧
     (cast_vote c6Db ⟨none, some uuidStr10⟩ 902 5).2.1 = c6Db ∧
     (cast_vote c6Db ⟨none, some uuidStr10⟩ 902 5).2.2 = []) ∧
    ((cast_vote c6Db ⟨some uuidStr1, some "zz"⟩ 903 5).1.status = 400 ∧
     (cast_vote c6Db ⟨some uuidStr1, some "zz"⟩ 903 5).2.1 = c6Db ∧
     (cast_vote c6Db ⟨some uuidStr1, some "zz"⟩ 903 5).2.2 = []) :=
  ⟨c9_malformed_uuid_no_storage c6Db ⟨none, some uuidStr10⟩ 902 5 (Or.inl (by decide)),
   c9_malformed_uuid_no_storage c6Db ⟨some uuidStr1, some "zz"⟩ 903 5 (Or.inr (by decide))⟩

/-- Claim C10: after creation the voting_stats table is never read or
written: register_voter and cast_vote leave it untouched for every
input, no handler trace contains an operation on it (the StorageOp type
has no such operation because the source has no such statement), and
every statistics response is recomputed as the two counts over the
votes and voters tables — its body (StatsResult) holds exactly
total_votes and total_voters. -/
theorem c10_voting_stats_never_touched (db : DB) (rdata : RegisterRequest)
    (vdata : VoteRequest) (rvid w : Uuid) (rnow vnow : Timestamp) :
    (register_voter db rdata rvid rnow).2.1.voting_stats = db.voting_stats ∧
    (cast_vote db vdata w vnow).2.1.voting_stats = db.voting_stats ∧
    (get_statistics db).1 =
      { total_votes := db.votes.length, total_voters := db.voters.length } ∧
    (get_statistics db).2 = [StorageOp.countVotesOp, StorageOp.countVotersOp] ∧
    (get_candidates db).2 = [StorageOp.selectCandidatesOp] := by
  refine ⟨rfl, ?_, rfl, rfl, rfl⟩
  unfold cast_vote
  split
  · rfl
  split
  · rfl
  split
  · rfl
  · rfl

end EVoting
